import Mathlib

/-!
Verification development for the sinope_triggers repository: a shallow
embedding of the monitor loop (monitor.py), the trigger execution engine
(trigger_manager.py), the action/condition primitives (action_executor.py)
and the Neviweb client login/reconnect logic (neviweb_client.py), together
with theorems settling the specification claims.

Python/JSON values are embedded as the inductive `JValue`; Python
exceptions are embedded as the `Except Unit` error channel; external
collaborators (keyboard injector, command runner, reachability probe,
HTTP transport) are parameters that may themselves raise.
-/

namespace Sinope

/-- Embedded Python/JSON value (no floats appear in the modelled paths). -/
inductive JValue where
  | null
  | bool (b : Bool)
  | int (n : Int)
  | str (s : String)
  | list (xs : List JValue)
  | dict (kvs : List (String × JValue))

/-- A Python dict with string keys, as delivered by JSON parsing. -/
abbrev Dict := List (String × JValue)

/-- Python truthiness (`bool(v)`). -/
def truthy : JValue → Bool
  | .null => false
  | .bool b => b
  | .int n => n != 0
  | .str s => s ≠ ""
  | .list xs => ¬ xs.isEmpty
  | .dict kvs => ¬ kvs.isEmpty

/-- `d.get(k, dflt)`: the stored value when the key is present (even if that
value is null), otherwise the default. -/
def dget (kvs : Dict) (k : String) (dflt : JValue) : JValue :=
  (kvs.lookup k).getD dflt

/-- Numeric view used by Python arithmetic comparisons: ints are ints and
bools are 0/1; every other value has no numeric view. -/
def pyNum : JValue → Option Int
  | .int n => some n
  | .bool b => some (if b then 1 else 0)
  | _ => none

/-- Python `v == k` against an int literal: numeric values compare
numerically, non-numeric values are simply unequal (no exception). -/
def pyEqInt (v : JValue) (k : Int) : Bool :=
  match pyNum v with
  | some x => x == k
  | none => false

/-- Python `v > k` against an int literal: defined for numeric values,
raises TypeError otherwise. -/
def pyGtInt (v : JValue) (k : Int) : Except Unit Bool :=
  match pyNum v with
  | some x => .ok (decide (k < x))
  | none => .error ()

/-- Whether a value is the Python singleton None (`v is None`). -/
def isNull : JValue → Bool
  | .null => true
  | _ => false

/-- monitor.py lines 184-188: `info.get("outputPercentDisplay", {}).get("percent", 0)`
wrapped in try/except with `percent = 0` on any exception (a non-dict `info`
or a non-dict field value raises AttributeError, caught to 0). -/
def extractPercent : JValue → JValue
  | .dict kvs =>
      match dget kvs "outputPercentDisplay" (.dict []) with
      | .dict inner => dget inner "percent" (.int 0)
      | _ => .int 0
  | _ => .int 0

/-- monitor.py line 205: `last_percent == 0 and percent > 0` (short-circuit:
the right operand, which may raise, is only evaluated when the left is true). -/
def evalCond1 (last percent : JValue) : Except Unit Bool :=
  if pyEqInt last 0 then pyGtInt percent 0 else .ok false

/-- monitor.py line 209: `last_percent > 0 and percent == 0` (the left
operand may raise; the right never does). -/
def evalCond2 (last percent : JValue) : Except Unit Bool :=
  match pyGtInt last 0 with
  | .error e => .error e
  | .ok b => .ok (b && pyEqInt percent 0)

/-- monitor.py lines 202-213, the body of the try in the trigger block:
the None guard, the two transition tests, and the trigger dispatches.
Returns the list of trigger names fired; the error case carries the
triggers fired before the exception (the enclosing except swallows it
and skips the `last_percent = percent` assignment). -/
def triggerTry (execT : String → Except Unit Unit) (last percent : JValue) :
    Except (List String) (List String) :=
  if isNull last then .ok []
  else
    match evalCond1 last percent with
    | .error _ => .error []
    | .ok true =>
        match execT "on_heater_on" with
        | .ok _ => .ok ["on_heater_on"]
        | .error _ => .error ["on_heater_on"]
    | .ok false =>
        match evalCond2 last percent with
        | .error _ => .error []
        | .ok true =>
            match execT "on_heater_off" with
            | .ok _ => .ok ["on_heater_off"]
            | .error _ => .error ["on_heater_off"]
        | .ok false => .ok []

/-- monitor.py lines 200-215: the whole trigger-mode block including the
except handler. Yields the fired triggers and the new `last_percent`:
the current percent on normal completion, the old value when the try raised. -/
def triggerBlock (execT : String → Except Unit Unit) (last percent : JValue) :
    List String × JValue :=
  match triggerTry execT last percent with
  | .ok fired => (fired, percent)
  | .error fired => (fired, last)

/-- action_executor.py lines 47-70 (`ConditionChecker._check_ping`): extract
host, count and timeout from the condition dict (Python `.get` defaults 1
and 100) and invoke the reachability probe collaborator; the probe stands
for the platform-specific command build plus subprocess run, and may raise. -/
def checkPing (probe : JValue → JValue → JValue → Except Unit Bool) (kvs : Dict) :
    Except Unit Bool :=
  probe (dget kvs "host" .null) (dget kvs "count" (.int 1)) (dget kvs "timeout" (.int 100))

/-- action_executor.py lines 20-45 (`ConditionChecker.check`): a falsy
condition passes; `condition.get("type")` raises AttributeError on a truthy
non-dict (outside the try, so it propagates); the dispatch on the type is
wrapped in try/except where any exception yields False, a `ping` type runs
the probe, and any other type warns and yields True. -/
def check (probe : JValue → JValue → JValue → Except Unit Bool) (condition : JValue) :
    Except Unit Bool :=
  if ¬ truthy condition then .ok true
  else
    match condition with
    | .dict kvs =>
        match dget kvs "type" .null with
        | .str t =>
            if t == "ping" then
              match checkPing probe kvs with
              | .ok b => .ok b
              | .error _ => .ok false
            else .ok true
        | _ => .ok true
    | _ => .error ()

/-- action_executor.py lines 112-121 (`_execute_keyboard`): `range(repeat)`
raises TypeError on a non-numeric repeat; otherwise the injector is invoked
once per iteration (the inter-repeat sleep has no modelled effect). -/
def execKeyboard (inj : JValue → Except Unit Unit) (kvs : Dict) : Except Unit Unit :=
  match pyNum (dget kvs "repeat" (.int 1)) with
  | none => .error ()
  | some r => injLoop inj (dget kvs "key" .null) r.toNat
where
  injLoop (inj : JValue → Except Unit Unit) (key : JValue) : Nat → Except Unit Unit
    | 0 => .ok ()
    | n + 1 =>
        match inj key with
        | .error e => .error e
        | .ok _ => injLoop inj key n

/-- action_executor.py lines 123-137 (`_execute_command`): `range(repeat)`
raises TypeError on a non-numeric repeat; otherwise the command runner is
invoked once per iteration and may raise. -/
def execCommand (runner : JValue → Except Unit Int) (kvs : Dict) : Except Unit Unit :=
  match pyNum (dget kvs "repeat" (.int 1)) with
  | none => .error ()
  | some r => runLoop runner (dget kvs "command" .null) r.toNat
where
  runLoop (runner : JValue → Except Unit Int) (cmd : JValue) : Nat → Except Unit Unit
    | 0 => .ok ()
    | n + 1 =>
        match runner cmd with
        | .error e => .error e
        | .ok _ => runLoop runner cmd n

/-- action_executor.py lines 139-143 (`_execute_sleep`): `time.sleep(seconds)`
raises on a non-numeric or negative argument, otherwise just elapses time. -/
def execSleep (kvs : Dict) : Except Unit Unit :=
  match pyNum (dget kvs "seconds" (.int 0)) with
  | some k => if 0 ≤ k then .ok () else .error ()
  | none => .error ()

/-- action_executor.py lines 97-107, the body of the try in
`ActionExecutor.execute`: dispatch on `action_type`, where an unknown type
warns and no-ops. -/
def dispatchAction (inj : JValue → Except Unit Unit) (runner : JValue → Except Unit Int)
    (kvs : Dict) : Except Unit Unit :=
  match dget kvs "action_type" .null with
  | .str t =>
      if t == "keyboard" then execKeyboard inj kvs
      else if t == "command" then execCommand runner kvs
      else if t == "sleep" then execSleep kvs
      else .ok ()
  | _ => .ok ()

/-- action_executor.py lines 79-110 (`ActionExecutor.execute`):
`action.get("enabled", True)` raises AttributeError on a non-dict action
(outside any try, so it propagates); a falsy enabled flag is a no-op; a
truthy condition is checked (an exception from `check` also propagates,
line 93 is before the try at line 99); the dispatch on `action_type` is
wrapped in try/except that swallows every exception. -/
def execute (inj : JValue → Except Unit Unit) (runner : JValue → Except Unit Int)
    (probe : JValue → JValue → JValue → Except Unit Bool) (action : JValue) :
    Except Unit Unit :=
  match action with
  | .dict kvs =>
      if ¬ truthy (dget kvs "enabled" (.bool true)) then .ok ()
      else
        let condition := dget kvs "condition" .null
        let gate : Except Unit Bool :=
          if truthy condition then check probe condition else .ok true
        match gate with
        | .error e => .error e
        | .ok false => .ok ()
        | .ok true =>
            match dispatchAction inj runner kvs with
            | .ok _ => .ok ()
            | .error _ => .ok ()
  | _ => .error ()

/-- Python `str(v)` for the scalar values that appear as device ids; the
textual form of compound values is abstracted (never compared in the
modelled paths). -/
def pyStr : JValue → String
  | .null => "None"
  | .bool true => "True"
  | .bool false => "False"
  | .int n => toString n
  | .str s => s
  | .list _ => "<list>"
  | .dict _ => "<dict>"

/-- monitor.py lines 103 / 137 / 158:
`next((d for d in client.devices if str(d.get("id")) == str(deviceId)), None)`. -/
def findDevice (devices : List Dict) (deviceId : JValue) : Option Dict :=
  devices.find? (fun d => pyStr (dget d "id" .null) == pyStr deviceId)

/-- neviweb_client.py lines 43-101 (`NeviwebClient.login`), one HTTP outcome
per POST: either the request/raise_for_status/json step raised, or a parsed
body came back. -/
inductive HttpOutcome where
  | exn
  | body (v : JValue)

/-- Observable trace of one `login()` call: its return value, how many login
POSTs it sent, and whether the forced logout was attempted. -/
structure LoginTrace where
  success : Bool
  posts : Nat
  logoutTried : Bool

/-- neviweb_client.py lines 43-101 (`NeviwebClient.login`): a failed first
request returns False; a dict body with a `session` key succeeds; otherwise
`result.get("error", {}).get("code")` (raising on a non-dict error value,
uncaught) is compared to ACCSESSEXC — on match, a forced logout (its own
exceptions swallowed) is followed by exactly one retry whose dict-with-
session body succeeds and anything else fails; any other body fails. -/
def loginModel (first second : HttpOutcome) : Except Unit LoginTrace :=
  match first with
  | .exn => .ok ⟨false, 1, false⟩
  | .body r =>
      match r with
      | .dict kvs =>
          if (kvs.lookup "session").isSome then .ok ⟨true, 1, false⟩
          else
            match dget kvs "error" (.dict []) with
            | .dict ekvs =>
                match dget ekvs "code" .null with
                | .str c =>
                    if c == "ACCSESSEXC" then
                      match second with
                      | .exn => .ok ⟨false, 2, true⟩
                      | .body r2 =>
                          match r2 with
                          | .dict kvs2 =>
                              if (kvs2.lookup "session").isSome then .ok ⟨true, 2, true⟩
                              else .ok ⟨false, 2, true⟩
                          | _ => .ok ⟨false, 2, true⟩
                    else .ok ⟨false, 1, false⟩
                | _ => .ok ⟨false, 1, false⟩
            | _ => .error ()
      | _ => .ok ⟨false, 1, false⟩

/-- monitor.py lines 43-63 (`reconnect`): the loop body, structurally
recursive on the remaining attempts; `attempt` is the count already made,
`acc` the reversed delays slept so far. Each attempt runs `login()` then
`get_devices()` (either returning False raises, caught by the except which
sleeps `base * 2 ^ (attempt - 1)`). Returns (success, attempts made,
delays slept in order). -/
def reconnectAux (login getDev : Nat → Bool) (base : Nat) :
    Nat → Nat → List Nat → Bool × Nat × List Nat
  | 0, attempt, acc => (false, attempt, acc.reverse)
  | fuel + 1, attempt, acc =>
      let a := attempt + 1
      if login a && getDev a then (true, a, acc.reverse)
      else reconnectAux login getDev base fuel a (base * 2 ^ (a - 1) :: acc)

/-- monitor.py lines 43-63 (`reconnect`), entry point with the source
defaults `max_attempts=6, base_delay=5` supplied by the caller. -/
def reconnectRun (maxAttempts base : Nat) (login getDev : Nat → Bool) :
    Bool × Nat × List Nat :=
  reconnectAux login getDev base maxAttempts 0 []

/-- Monitor loop state carried across poll cycles: `last_percent` and the
device backing the current `Thermostat`. -/
structure MonState where
  last : JValue
  device : Dict

/-- Outcome of one poll cycle body: either an uncaught exception escapes the
loop (killing the process), or the loop sleeps and continues with a new
state, having fired the listed triggers; `reResolved` records whether the
tracked device was re-resolved from a refreshed device list this cycle. -/
inductive CycleOut where
  | crash
  | next (s : MonState) (fired : List String) (reResolved : Bool)

/-- monitor.py line 151: `err_code in ("USRSESSEXP", "SESSION_EXPIRED",
"SESSIONINVALID")`. -/
def sessionExpiredCode : JValue → Bool
  | .str s => s == "USRSESSEXP" || s == "SESSION_EXPIRED" || s == "SESSIONINVALID"
  | _ => false

/-- monitor.py lines 132-143 / 153-164: reconnect then re-select the device;
on reconnect failure or a missing device the old thermostat is kept (the
loop just sleeps), on success the thermostat is rebuilt around the freshly
resolved device. -/
def reconnectAndReselect (deviceId : JValue) (s : MonState) (reconnectOk : Bool)
    (newDevices : List Dict) : MonState × Bool :=
  if reconnectOk then
    match findDevice newDevices deviceId with
    | some d => (⟨s.last, d⟩, true)
    | none => (s, false)
  else (s, false)

/-- monitor.py lines 182-218: the successful-sample tail of the poll cycle —
percent extraction, then the trigger block when (and only when) the mode is
`trigger` (the `trigger_manager` object is created exactly in that mode and
is always truthy). -/
def successStep (mode : String) (execT : String → Except Unit Unit) (s : MonState)
    (i : JValue) : CycleOut :=
  let percent := extractPercent i
  if mode == "trigger" then
    let r := triggerBlock execT s.last percent
    .next ⟨r.2, s.device⟩ r.1 false
  else .next s [] false

/-- monitor.py lines 126-218, one iteration of the `while True` body.
Per-cycle oracle inputs: the `get_all_info()` result (`info`), whether a
`reconnect()` call this cycle would succeed (`reconnectOk`), and the device
list it would leave in the client (`newDevices`).
Branches: a None info reconnects and re-selects; a dict info with an
`error` key reads `info["error"].get("code")` (crashing on a non-dict error
value), reconnects-and-reselects for the session-expired family, and merely
reconnects (no re-selection) for ACCSESSEXC and for any other code; every
other info is a successful sample. -/
def pollCycleFull (mode : String) (execT : String → Except Unit Unit)
    (deviceId : JValue) (s : MonState) (info : Option JValue)
    (reconnectOk : Bool) (newDevices : List Dict) : CycleOut :=
  match info with
  | none =>
      let p := reconnectAndReselect deviceId s reconnectOk newDevices
      .next p.1 [] p.2
  | some i =>
      match i with
      | .dict kvs =>
          match kvs.lookup "error" with
          | some errVal =>
              match errVal with
              | .dict ekvs =>
                  if sessionExpiredCode (dget ekvs "code" .null) then
                    let p := reconnectAndReselect deviceId s reconnectOk newDevices
                    .next p.1 [] p.2
                  else
                    match dget ekvs "code" .null with
                    | .str c =>
                        if c == "ACCSESSEXC" then .next s [] false
                        else .next s [] false
                    | _ => .next s [] false
              | _ => .crash
          | none => successStep mode execT s i
      | _ => successStep mode execT s i

/-- The triggers fired by a poll cycle (none when the cycle crashed). -/
def cycleFired : CycleOut → List String
  | .crash => []
  | .next _ fired _ => fired

/-- The `last_percent` after a poll cycle, when the cycle did not crash. -/
def cycleLast : CycleOut → Option JValue
  | .crash => none
  | .next s _ _ => some s.last

/-- The tracked device after a poll cycle, when the cycle did not crash. -/
def cycleDevice : CycleOut → Option Dict
  | .crash => none
  | .next s _ _ => some s.device

/-- Outcome of startup (monitor.py lines 96-108): the three fatal early
returns, or the loop starting around a resolved device. -/
inductive StartupOut where
  | exitLogin
  | exitDevices
  | exitNotFound
  | running (device : Dict)

/-- monitor.py lines 96-108: initial `login()`, initial `get_devices()`,
then device resolution; each failure terminates the process. -/
def startup (loginOk devicesOk : Bool) (devices : List Dict) (deviceId : JValue) :
    StartupOut :=
  if ¬ loginOk then .exitLogin
  else if ¬ devicesOk then .exitDevices
  else
    match findDevice devices deviceId with
    | none => .exitNotFound
    | some d => .running d

/-- Whether a `get_all_info()` body takes the API-error branch
(monitor.py line 147: `isinstance(info, dict) and "error" in info`). -/
def isErrorSample : JValue → Bool
  | .dict kvs => (kvs.lookup "error").isSome
  | _ => false

/-- Trigger dispatch collaborator that never raises. -/
def okExecT : String → Except Unit Unit := fun _ => .ok ()

/-- Keyboard injector collaborator that never raises. -/
def okInj : JValue → Except Unit Unit := fun _ => .ok ()

/-- Command runner collaborator that never raises. -/
def okRunner : JValue → Except Unit Int := fun _ => .ok 0

/-- Reachability probe collaborator that never raises. -/
def okProbe : JValue → JValue → JValue → Except Unit Bool := fun _ _ _ => .ok true

/-- Reachability probe collaborator that always raises. -/
def errProbe : JValue → JValue → JValue → Except Unit Bool := fun _ _ _ => .error ()

/-- A device record as first resolved at startup. -/
def dev0 : Dict := [("id", .int 1), ("name", .str "old")]

/-- A device record with the same id delivered by a refreshed device list. -/
def dev1 : Dict := [("id", .int 1), ("name", .str "new")]

/-- A successful sample whose output percent is 45. -/
def sample45 : JValue := .dict [("outputPercentDisplay", .dict [("percent", .int 45)])]

/-- A successful sample whose `percent` sub-field is present but null. -/
def sampleNullPercent : JValue :=
  .dict [("outputPercentDisplay", .dict [("percent", .null)])]

/-- An API error body reporting too many sessions. -/
def accInfo : JValue := .dict [("error", .dict [("code", .str "ACCSESSEXC")])]

/-- An API error body reporting an expired session. -/
def sessInfo : JValue := .dict [("error", .dict [("code", .str "USRSESSEXP")])]

/-- Whether a value is an integer in [0,100] — the downstream contract the
claims state for the extracted percent. -/
def isPercentInt : JValue → Bool
  | .int n => decide (0 ≤ n ∧ n ≤ 100)
  | _ => false

/-- Whether an HTTP outcome is a dict body containing a `session` field
(`isinstance(result, dict) and "session" in result`). -/
def hasSession : HttpOutcome → Bool
  | .body (.dict kvs) => (kvs.lookup "session").isSome
  | _ => false

/-! ## Helper lemmas -/

theorem triggerBlock_null (execT : String → Except Unit Unit) (percent : JValue) :
    triggerBlock execT .null percent = ([], percent) := rfl

theorem triggerBlock_spec (execT : String → Except Unit Unit) (last : JValue) (n : Int)
    (h : last = .null ∨ ∃ m : Int, last = .int m) :
    (("on_heater_on" ∈ (triggerBlock execT last (.int n)).1) ↔ (last = .int 0 ∧ 0 < n)) ∧
    (("on_heater_off" ∈ (triggerBlock execT last (.int n)).1) ↔
      ((∃ m : Int, last = .int m ∧ 0 < m) ∧ n = 0)) ∧
    (last = .null → (triggerBlock execT last (.int n)).1 = []) ∧
    ((last = .null ∨ (∀ name, execT name = .ok ())) →
      (triggerBlock execT last (.int n)).2 = .int n) := by
  rcases h with h | ⟨m, h⟩ <;> subst h
  · simp [triggerBlock_null]
  · by_cases hm : m = 0
    · subst hm
      by_cases hn : 0 < n
      · have hb : decide ((0 : Int) < n) = true := by simpa using hn
        have hn0 : n ≠ 0 := by omega
        rcases hE : execT "on_heater_on" with e | u
        · simp [triggerBlock, triggerTry, evalCond1, evalCond2, pyEqInt, pyGtInt,
            pyNum, isNull, hb, hE, hn, hn0]
          exact fun hall => absurd (hall "on_heater_on") (by simp [hE])
        · simp [triggerBlock, triggerTry, evalCond1, evalCond2, pyEqInt, pyGtInt,
            pyNum, isNull, hb, hE, hn, hn0]
      · have hb : decide ((0 : Int) < n) = false := by simpa using hn
        simp [triggerBlock, triggerTry, evalCond1, evalCond2, pyEqInt, pyGtInt,
          pyNum, isNull, hb, hn]
    · have hm0 : (m == (0 : Int)) = false := by simpa using hm
      by_cases hmo : 0 < m
      · have hb : decide ((0 : Int) < m) = true := by simpa using hmo
        by_cases hn : n = 0
        · subst hn
          rcases hE : execT "on_heater_off" with e | u
          · simp [triggerBlock, triggerTry, evalCond1, evalCond2, pyEqInt, pyGtInt,
              pyNum, isNull, hm0, hb, hE, hm, hmo]
            exact ⟨"on_heater_off", by simp [hE]⟩
          · simp [triggerBlock, triggerTry, evalCond1, evalCond2, pyEqInt, pyGtInt,
              pyNum, isNull, hm0, hb, hE, hm, hmo]
        · have hbn : (n == (0 : Int)) = false := by simpa using hn
          simp [triggerBlock, triggerTry, evalCond1, evalCond2, pyEqInt, pyGtInt,
            pyNum, isNull, hm0, hb, hbn, hm, hn]
      · have hb : decide ((0 : Int) < m) = false := by simpa using hmo
        simp [triggerBlock, triggerTry, evalCond1, evalCond2, pyEqInt, pyGtInt,
          pyNum, isNull, hm0, hb, hm, hmo]

theorem reconnectAndReselect_fst_last (deviceId : JValue) (s : MonState)
    (reconnectOk : Bool) (newDevices : List Dict) :
    ((reconnectAndReselect deviceId s reconnectOk newDevices).1).last = s.last := by
  unfold reconnectAndReselect
  cases reconnectOk
  · simp
  · cases findDevice newDevices deviceId <;> simp

theorem check_isOk (probe : JValue → JValue → JValue → Except Unit Bool)
    (condition : JValue)
    (h : truthy condition = false ∨ ∃ ckvs : Dict, condition = .dict ckvs) :
    ∃ b, check probe condition = .ok b := by
  rcases h with h | ⟨ckvs, rfl⟩
  · exact ⟨true, by simp [check, h]⟩
  · by_cases ht : truthy (.dict ckvs)
    · rcases hT : dget ckvs "type" .null with _ | b | nn | t | xs | kk
      · exact ⟨true, by simp [check, ht, hT]⟩
      · exact ⟨true, by simp [check, ht, hT]⟩
      · exact ⟨true, by simp [check, ht, hT]⟩
      · by_cases htp : (t == "ping") = true
        · rcases hP : checkPing probe ckvs with e | bb
          · exact ⟨false, by simp [check, ht, hT, htp, hP]⟩
          · exact ⟨bb, by simp [check, ht, hT, htp, hP]⟩
        · have hf : (t == "ping") = false := by simpa using htp
          exact ⟨true, by simp [check, ht, hT, hf]⟩
      · exact ⟨true, by simp [check, ht, hT]⟩
      · exact ⟨true, by simp [check, ht, hT]⟩
    · exact ⟨true, by simp [check, ht]⟩

theorem pollCycleFull_success (mode : String) (execT : String → Except Unit Unit)
    (deviceId : JValue) (s : MonState) (i : JValue) (reconnectOk : Bool)
    (newDevices : List Dict) (hi : isErrorSample i = false) :
    pollCycleFull mode execT deviceId s (some i) reconnectOk newDevices =
      successStep mode execT s i := by
  cases i with
  | dict kvs =>
      cases hL : kvs.lookup "error" with
      | none => simp [pollCycleFull, hL]
      | some v => simp [isErrorSample, hL] at hi
  | null => rfl
  | bool b => rfl
  | int n => rfl
  | str s => rfl
  | list xs => rfl

/-! ## Claim theorems -/

/-- C1: in trigger mode, a poll cycle with a successful sample fires
`on_heater_on` iff the recorded `last_percent` equals 0 and the current
percent is greater than 0, fires `on_heater_off` iff the recorded
`last_percent` is greater than 0 and the current percent equals 0, and on
the very first successful sample (`last_percent` still None) fires nothing
and only establishes the baseline. -/
theorem C1_trigger_fires_iff (execT : String → Except Unit Unit) (deviceId : JValue)
    (s : MonState) (info : JValue) (reconnectOk : Bool) (newDevices : List Dict)
    (n : Int)
    (hsucc : isErrorSample info = false)
    (hp : extractPercent info = .int n)
    (hlast : s.last = .null ∨ ∃ m : Int, s.last = .int m) :
    (("on_heater_on" ∈
        cycleFired (pollCycleFull "trigger" execT deviceId s (some info) reconnectOk newDevices)) ↔
      (s.last = .int 0 ∧ 0 < n)) ∧
    (("on_heater_off" ∈
        cycleFired (pollCycleFull "trigger" execT deviceId s (some info) reconnectOk newDevices)) ↔
      ((∃ m : Int, s.last = .int m ∧ 0 < m) ∧ n = 0)) ∧
    (s.last = .null →
      cycleFired (pollCycleFull "trigger" execT deviceId s (some info) reconnectOk newDevices) = [] ∧
      cycleLast (pollCycleFull "trigger" execT deviceId s (some info) reconnectOk newDevices) =
        some (.int n)) := by
  rw [pollCycleFull_success "trigger" execT deviceId s info reconnectOk newDevices hsucc]
  have hspec := triggerBlock_spec execT s.last n hlast
  simp only [successStep, hp, cycleFired, cycleLast, show ("trigger" == "trigger") = true from rfl,
    if_true]
  refine ⟨hspec.1, hspec.2.1, fun hnull => ⟨hspec.2.2.1 hnull, ?_⟩⟩
  rw [hspec.2.2.2 (Or.inl hnull)]

/-- Witness for C1 at a concrete cycle: `last_percent = 0`, sample percent 45,
so exactly `on_heater_on` fires. -/
theorem C1_trigger_fires_iff_witness :
    (("on_heater_on" ∈
        cycleFired (pollCycleFull "trigger" okExecT (.int 1) ⟨.int 0, dev0⟩ (some sample45) true [])) ↔
      ((JValue.int 0 : JValue) = .int 0 ∧ (0 : Int) < 45)) ∧
    (("on_heater_off" ∈
        cycleFired (pollCycleFull "trigger" okExecT (.int 1) ⟨.int 0, dev0⟩ (some sample45) true [])) ↔
      ((∃ m : Int, (JValue.int 0 : JValue) = .int m ∧ 0 < m) ∧ (45 : Int) = 0)) ∧
    ((JValue.int 0 : JValue) = .null →
      cycleFired (pollCycleFull "trigger" okExecT (.int 1) ⟨.int 0, dev0⟩ (some sample45) true []) = [] ∧
      cycleLast (pollCycleFull "trigger" okExecT (.int 1) ⟨.int 0, dev0⟩ (some sample45) true []) =
        some (.int 45)) :=
  C1_trigger_fires_iff okExecT (.int 1) ⟨.int 0, dev0⟩ sample45 true [] 45 rfl rfl
    (Or.inr ⟨0, rfl⟩)

/-- C2 counterexample: in monitor mode (not trigger mode) a successful
sample with percent 45 leaves `last_percent` untouched at None, so
`last_percent` is not updated "regardless of the run mode" as claimed. -/
theorem C2_lastPercent_counterexample :
    cycleLast (pollCycleFull "monitor" okExecT (.int 1) ⟨.null, dev0⟩ (some sample45) true []) =
      some .null ∧
    extractPercent sample45 = .int 45 ∧
    (JValue.null : JValue) ≠ .int 45 := by
  refine ⟨rfl, rfl, by simp⟩

/-- C2 amended: `last_percent` is updated to the current percent on every
successful sample in trigger mode, provided the stored value and the
extracted percent are integers (or None) and trigger dispatch raises no
exception — regardless of whether a trigger fired; in any other run mode a
successful sample never updates it; and a no-response sample or an API
error sample (with a well-formed error object) never updates it. -/
theorem C2_lastPercent_update_amended :
    (∀ (execT : String → Except Unit Unit) (deviceId : JValue) (s : MonState)
        (info : JValue) (reconnectOk : Bool) (newDevices : List Dict) (n : Int),
      isErrorSample info = false →
      extractPercent info = .int n →
      (s.last = .null ∨ ∃ m : Int, s.last = .int m) →
      (∀ name, execT name = .ok ()) →
      cycleLast (pollCycleFull "trigger" execT deviceId s (some info) reconnectOk newDevices) =
        some (.int n)) ∧
    (∀ (mode : String) (execT : String → Except Unit Unit) (deviceId : JValue)
        (s : MonState) (info : JValue) (reconnectOk : Bool) (newDevices : List Dict),
      mode ≠ "trigger" →
      isErrorSample info = false →
      cycleLast (pollCycleFull mode execT deviceId s (some info) reconnectOk newDevices) =
        some s.last) ∧
    (∀ (mode : String) (execT : String → Except Unit Unit) (deviceId : JValue)
        (s : MonState) (reconnectOk : Bool) (newDevices : List Dict),
      cycleLast (pollCycleFull mode execT deviceId s none reconnectOk newDevices) =
        some s.last) ∧
    (∀ (mode : String) (execT : String → Except Unit Unit) (deviceId : JValue)
        (s : MonState) (reconnectOk : Bool) (newDevices : List Dict)
        (kvs : Dict) (ekvs : Dict),
      kvs.lookup "error" = some (.dict ekvs) →
      cycleLast (pollCycleFull mode execT deviceId s (some (.dict kvs)) reconnectOk newDevices) =
        some s.last) := by
  refine ⟨?_, ?_, ?_, ?_⟩
  · intro execT deviceId s info reconnectOk newDevices n hsucc hp hlast hok
    rw [pollCycleFull_success "trigger" execT deviceId s info reconnectOk newDevices hsucc]
    have hspec := triggerBlock_spec execT s.last n hlast
    simp only [successStep, hp, cycleLast, show ("trigger" == "trigger") = true from rfl, if_true]
    rw [hspec.2.2.2 (Or.inr hok)]
  · intro mode execT deviceId s info reconnectOk newDevices hmode hsucc
    rw [pollCycleFull_success mode execT deviceId s info reconnectOk newDevices hsucc]
    have hb : (mode == "trigger") = false := by simpa using hmode
    simp [successStep, hb, cycleLast]
  · intro mode execT deviceId s reconnectOk newDevices
    simp [pollCycleFull, cycleLast, reconnectAndReselect_fst_last]
  · intro mode execT deviceId s reconnectOk newDevices kvs ekvs hl
    by_cases hs : sessionExpiredCode (dget ekvs "code" .null) = true
    · simp [pollCycleFull, hl, hs, cycleLast, reconnectAndReselect_fst_last]
    · have hs' : sessionExpiredCode (dget ekvs "code" .null) = false := by
        simpa using hs
      rcases hc : dget ekvs "code" .null with _ | b | nn | c | xs | kk <;>
        rw [hc] at hs' <;>
        simp [pollCycleFull, hl, hs', hc, cycleLast]

/-- Witness for C2's amended claim at concrete cycles: a trigger-mode update
to 45, a monitor-mode non-update, and an API-error non-update. -/
theorem C2_lastPercent_update_amended_witness :
    cycleLast (pollCycleFull "trigger" okExecT (.int 1) ⟨.int 0, dev0⟩ (some sample45) true []) =
      some (.int 45) ∧
    cycleLast (pollCycleFull "monitor" okExecT (.int 1) ⟨.int 7, dev0⟩ (some sample45) true []) =
      some (.int 7) ∧
    cycleLast (pollCycleFull "trigger" okExecT (.int 1) ⟨.int 7, dev0⟩
        (some (.dict [("error", .dict [("code", .str "ACCSESSEXC")])])) true []) =
      some (.int 7) :=
  ⟨C2_lastPercent_update_amended.1 okExecT (.int 1) ⟨.int 0, dev0⟩ sample45 true [] 45
      rfl rfl (Or.inr ⟨0, rfl⟩) (fun _ => rfl),
   C2_lastPercent_update_amended.2.1 "monitor" okExecT (.int 1) ⟨.int 7, dev0⟩ sample45 true []
      (by simp) rfl,
   C2_lastPercent_update_amended.2.2.2 "trigger" okExecT (.int 1) ⟨.int 7, dev0⟩ true []
      [("error", .dict [("code", .str "ACCSESSEXC")])] [("code", .str "ACCSESSEXC")] rfl⟩

/-- C3: the Condition Checker passes an absent (falsy) condition, passes a
condition whose kind is not the known `ping` kind (fail open), and returns
false when the evaluation of a `ping` condition raises (fail closed). -/
theorem C3_condition_checker (probe : JValue → JValue → JValue → Except Unit Bool)
    (condition : JValue) :
    (truthy condition = false → check probe condition = .ok true) ∧
    (∀ kvs : Dict, condition = .dict kvs →
      dget kvs "type" .null ≠ .str "ping" →
      check probe condition = .ok true) ∧
    (∀ kvs : Dict, condition = .dict kvs →
      dget kvs "type" .null = .str "ping" →
      probe (dget kvs "host" .null) (dget kvs "count" (.int 1))
          (dget kvs "timeout" (.int 100)) = .error () →
      check probe condition = .ok false) := by
  refine ⟨fun ht => ?_, fun kvs hk hne => ?_, fun kvs hk hp hpe => ?_⟩
  · simp [check, ht]
  · subst hk
    by_cases ht : truthy (.dict kvs)
    · rcases hT : dget kvs "type" .null with _ | b | nn | t | xs | kk <;>
        simp [check, ht, hT]
      have htne : t ≠ "ping" := by
        intro h
        exact hne (by rw [hT, h])
      simp [htne]
    · simp [check, ht]
  · subst hk
    have ht : truthy (.dict kvs) = true := by
      cases kvs with
      | nil => simp [dget] at hp
      | cons hd tl => simp [truthy]
    simp [check, ht, hp, checkPing, hpe]

/-- Witness for C3 at concrete conditions: an absent condition, an unknown
`foo` kind, and a `ping` condition whose probe raises. -/
theorem C3_condition_checker_witness :
    check errProbe .null = .ok true ∧
    check errProbe (.dict [("type", .str "foo")]) = .ok true ∧
    check errProbe (.dict [("type", .str "ping"), ("host", .str "h")]) = .ok false :=
  ⟨(C3_condition_checker errProbe .null).1 rfl,
   (C3_condition_checker errProbe (.dict [("type", .str "foo")])).2.1
      [("type", .str "foo")] rfl (by simp [dget]),
   (C3_condition_checker errProbe (.dict [("type", .str "ping"), ("host", .str "h")])).2.2
      [("type", .str "ping"), ("host", .str "h")] rfl rfl rfl⟩

/-- C4 counterexample: a malformed (non-dict) action makes
`ActionExecutor.execute` raise AttributeError at `action.get("enabled", True)`
(before any try/except), and a malformed truthy non-dict condition makes
`ConditionChecker.check` raise at `condition.get("type")`; both exceptions
propagate to the caller, contrary to the claim. -/
theorem C4_no_exception_counterexample :
    execute okInj okRunner okProbe (.str "x") = .error () ∧
    check okProbe (.str "x") = .error () :=
  ⟨rfl, rfl⟩

/-- C4 amended: for every action that is a dict whose `condition` field, if
truthy, is itself a dict, `ActionExecutor.execute` raises no exception
(dispatch errors are caught and swallowed); and for every falsy-or-dict
condition, `ConditionChecker.check` raises no exception. Non-dict actions
and truthy non-dict conditions raise AttributeError before the try blocks. -/
theorem C4_no_exception_amended :
    (∀ (inj : JValue → Except Unit Unit) (runner : JValue → Except Unit Int)
        (probe : JValue → JValue → JValue → Except Unit Bool) (kvs : Dict),
      (truthy (dget kvs "condition" .null) = false ∨
        ∃ ckvs : Dict, dget kvs "condition" .null = .dict ckvs) →
      execute inj runner probe (.dict kvs) = .ok ()) ∧
    (∀ (probe : JValue → JValue → JValue → Except Unit Bool) (condition : JValue),
      (truthy condition = false ∨ ∃ ckvs : Dict, condition = .dict ckvs) →
      ∃ b, check probe condition = .ok b) := by
  refine ⟨?_, check_isOk⟩
  intro inj runner probe kvs hcond
  by_cases hen : truthy (dget kvs "enabled" (.bool true))
  · obtain ⟨b, hb⟩ : ∃ b,
        (if truthy (dget kvs "condition" .null)
          then check probe (dget kvs "condition" .null) else .ok true) = .ok b := by
      by_cases htc : truthy (dget kvs "condition" .null)
      · obtain ⟨b, hb⟩ := check_isOk probe (dget kvs "condition" .null) hcond
        exact ⟨b, by simp [htc, hb]⟩
      · exact ⟨true, by simp [htc]⟩
    cases b
    · simp [execute, hen, hb]
    · rcases hd : dispatchAction inj runner kvs with e | u <;>
        simp [execute, hen, hb, hd]
  · simp [execute, hen]

/-- Witness for C4's amended claim: a well-formed keyboard action executes
without raising, and a dict ping condition checks without raising. -/
theorem C4_no_exception_amended_witness :
    execute okInj okRunner okProbe
      (.dict [("action_type", .str "keyboard"), ("key", .str "a")]) = .ok () ∧
    ∃ b, check okProbe (.dict [("type", .str "ping"), ("host", .str "h")]) = .ok b :=
  ⟨C4_no_exception_amended.1 okInj okRunner okProbe
      [("action_type", .str "keyboard"), ("key", .str "a")] (Or.inl rfl),
   C4_no_exception_amended.2 okProbe (.dict [("type", .str "ping"), ("host", .str "h")])
      (Or.inr ⟨[("type", .str "ping"), ("host", .str "h")], rfl⟩)⟩

/-- C5 counterexample: a successful sample whose `percent` sub-field is
present but null flows downstream as None — the field is present, so the
`.get("percent", 0)` default does not apply, no exception is raised, and the
claimed "never None/undefined downstream" is violated. -/
theorem C5_percent_counterexample :
    extractPercent sampleNullPercent = .null ∧
    isPercentInt (extractPercent sampleNullPercent) = false ∧
    isNull (extractPercent sampleNullPercent) = true :=
  ⟨rfl, rfl, rfl⟩

/-- C5 amended: provided that whenever `outputPercentDisplay` resolves to a
dict containing a `percent` key that value is an integer in [0,100], the
percent used downstream is an integer in [0,100]; it defaults to 0 whenever
the sample is not a dict, `outputPercentDisplay` is absent or not a dict,
or the `percent` sub-field is absent. -/
theorem C5_percent_amended (info : JValue)
    (hwf : ∀ (kvs inner : Dict), info = .dict kvs →
      dget kvs "outputPercentDisplay" (.dict []) = .dict inner →
      ∀ v, inner.lookup "percent" = some v → ∃ k : Int, v = .int k ∧ 0 ≤ k ∧ k ≤ 100) :
    (∃ k : Int, extractPercent info = .int k ∧ 0 ≤ k ∧ k ≤ 100) ∧
    (∀ kvs : Dict, info = .dict kvs → kvs.lookup "outputPercentDisplay" = none →
      extractPercent info = .int 0) ∧
    (∀ (kvs inner : Dict), info = .dict kvs →
      dget kvs "outputPercentDisplay" (.dict []) = .dict inner →
      inner.lookup "percent" = none → extractPercent info = .int 0) ∧
    ((∀ kvs : Dict, info ≠ .dict kvs) → extractPercent info = .int 0) := by
  refine ⟨?_, ?_, ?_, ?_⟩
  · cases info with
    | dict kvs =>
        rcases hO : dget kvs "outputPercentDisplay" (.dict []) with _ | b | nn | t | xs | inner
        · exact ⟨0, by simp [extractPercent, hO], by omega, by omega⟩
        · exact ⟨0, by simp [extractPercent, hO], by omega, by omega⟩
        · exact ⟨0, by simp [extractPercent, hO], by omega, by omega⟩
        · exact ⟨0, by simp [extractPercent, hO], by omega, by omega⟩
        · exact ⟨0, by simp [extractPercent, hO], by omega, by omega⟩
        · cases hP : inner.lookup "percent" with
          | none =>
              refine ⟨0, ?_, by omega, by omega⟩
              simp only [extractPercent]
              rw [hO]
              simp [dget, hP]
          | some v =>
              obtain ⟨k, hk, h0, h100⟩ := hwf kvs inner rfl hO v hP
              refine ⟨k, ?_, h0, h100⟩
              simp only [extractPercent]
              rw [hO]
              simp [dget, hP, hk]
    | null => exact ⟨0, rfl, by omega, by omega⟩
    | bool b => exact ⟨0, rfl, by omega, by omega⟩
    | int n => exact ⟨0, rfl, by omega, by omega⟩
    | str s => exact ⟨0, rfl, by omega, by omega⟩
    | list xs => exact ⟨0, rfl, by omega, by omega⟩
  · intro kvs hk hl
    subst hk
    simp [extractPercent, dget, hl]
  · intro kvs inner hk hO hP
    subst hk
    simp only [extractPercent]
    rw [hO]
    simp [dget, hP]
  · intro hnd
    cases info with
    | dict kvs => exact absurd rfl (hnd kvs)
    | null => rfl
    | bool b => rfl
    | int n => rfl
    | str s => rfl
    | list xs => rfl

/-- Witness for C5's amended claim at the concrete percent-45 sample. -/
theorem C5_percent_amended_witness :
    ∃ k : Int, extractPercent sample45 = .int k ∧ 0 ≤ k ∧ k ≤ 100 :=
  (C5_percent_amended sample45 (by
    intro kvs inner hk hO v hP
    injection hk with hk1
    subst hk1
    simp [dget] at hO
    subst hO
    simp at hP
    exact ⟨45, hP.symm, by omega, by omega⟩)).1

/-- C6: with the configured `max_attempts=6, base_delay=5`, the delay slept
after the n-th failed reconnect attempt is `5 * 2 ^ (n - 1)` (the delay list
is exactly the doubling sequence indexed by failed attempts, hence strictly
increasing), reconnect gives up after exactly 6 attempts when all fail
(sleeping [5,10,20,40,80,160]), and exhausting all attempts never
terminates the process: the monitor loop continues with its state unchanged
(it sleeps one poll interval and retries). -/
theorem C6_reconnect_backoff (login getDev : Nat → Bool) :
    ((reconnectRun 6 5 login getDev).2.2 =
      (List.range (reconnectRun 6 5 login getDev).2.2.length).map (fun i => 5 * 2 ^ i)) ∧
    List.Chain' (· < ·) (reconnectRun 6 5 login getDev).2.2 ∧
    ((∀ a, 1 ≤ a → a ≤ 6 → (login a && getDev a) = false) →
      reconnectRun 6 5 login getDev = (false, 6, [5, 10, 20, 40, 80, 160])) ∧
    (∀ (mode : String) (execT : String → Except Unit Unit) (deviceId : JValue)
        (s : MonState) (newDevices : List Dict),
      pollCycleFull mode execT deviceId s none false newDevices = .next s [] false) := by
  have hloop : ∀ (mode : String) (execT : String → Except Unit Unit) (deviceId : JValue)
      (s : MonState) (newDevices : List Dict),
      pollCycleFull mode execT deviceId s none false newDevices = .next s [] false := by
    intro mode execT deviceId s newDevices
    simp [pollCycleFull, reconnectAndReselect]
  have key :
      ((reconnectRun 6 5 login getDev).2.2 =
        (List.range (reconnectRun 6 5 login getDev).2.2.length).map (fun i => 5 * 2 ^ i)) ∧
      List.Chain' (· < ·) (reconnectRun 6 5 login getDev).2.2 ∧
      ((∀ a, 1 ≤ a → a ≤ 6 → (login a && getDev a) = false) →
        reconnectRun 6 5 login getDev = (false, 6, [5, 10, 20, 40, 80, 160])) := by
    by_cases h1 : (login 1 && getDev 1) = true
    · have hr : reconnectRun 6 5 login getDev = (true, 1, []) := by
        simp [reconnectRun, reconnectAux, h1]
      exact ⟨by rw [hr]; rfl, by rw [hr]; simp,
        fun hall => absurd (hall 1 (by omega) (by omega)) (by simp [h1])⟩
    · by_cases h2 : (login 2 && getDev 2) = true
      · have hr : reconnectRun 6 5 login getDev = (true, 2, [5]) := by
          simp [reconnectRun, reconnectAux, h1, h2]
        exact ⟨by rw [hr]; rfl, by rw [hr]; simp,
          fun hall => absurd (hall 2 (by omega) (by omega)) (by simp [h2])⟩
      · by_cases h3 : (login 3 && getDev 3) = true
        · have hr : reconnectRun 6 5 login getDev = (true, 3, [5, 10]) := by
            simp [reconnectRun, reconnectAux, h1, h2, h3]
          exact ⟨by rw [hr]; rfl, by rw [hr]; simp,
            fun hall => absurd (hall 3 (by omega) (by omega)) (by simp [h3])⟩
        · by_cases h4 : (login 4 && getDev 4) = true
          · have hr : reconnectRun 6 5 login getDev = (true, 4, [5, 10, 20]) := by
              simp [reconnectRun, reconnectAux, h1, h2, h3, h4]
            exact ⟨by rw [hr]; rfl, by rw [hr]; simp,
              fun hall => absurd (hall 4 (by omega) (by omega)) (by simp [h4])⟩
          · by_cases h5 : (login 5 && getDev 5) = true
            · have hr : reconnectRun 6 5 login getDev = (true, 5, [5, 10, 20, 40]) := by
                simp [reconnectRun, reconnectAux, h1, h2, h3, h4, h5]
              exact ⟨by rw [hr]; rfl, by rw [hr]; simp,
                fun hall => absurd (hall 5 (by omega) (by omega)) (by simp [h5])⟩
            · by_cases h6 : (login 6 && getDev 6) = true
              · have hr : reconnectRun 6 5 login getDev = (true, 6, [5, 10, 20, 40, 80]) := by
                  simp [reconnectRun, reconnectAux, h1, h2, h3, h4, h5, h6]
                exact ⟨by rw [hr]; rfl, by rw [hr]; simp,
                  fun hall => absurd (hall 6 (by omega) (by omega)) (by simp [h6])⟩
              · have hr : reconnectRun 6 5 login getDev =
                    (false, 6, [5, 10, 20, 40, 80, 160]) := by
                  simp [reconnectRun, reconnectAux, h1, h2, h3, h4, h5, h6]
                exact ⟨by rw [hr]; rfl, by rw [hr]; simp, fun _ => hr⟩
  exact ⟨key.1, key.2.1, key.2.2, hloop⟩

/-- Witness for C6 with oracles that always fail: all six delays are slept
in strictly doubling order, reconnect reports failure after exactly 6
attempts, and the monitor loop continues unchanged. -/
theorem C6_reconnect_backoff_witness :
    reconnectRun 6 5 (fun _ => false) (fun _ => false) = (false, 6, [5, 10, 20, 40, 80, 160]) ∧
    pollCycleFull "trigger" okExecT (.int 1) ⟨.null, dev0⟩ none false [] =
      .next ⟨.null, dev0⟩ [] false :=
  ⟨(C6_reconnect_backoff (fun _ => false) (fun _ => false)).2.2.1
      (fun _ _ _ => by simp),
   (C6_reconnect_backoff (fun _ => false) (fun _ => false)).2.2.2
      "trigger" okExecT (.int 1) ⟨.null, dev0⟩ []⟩

/-- C7 counterexample: a successful reconnect caused by an ACCSESSEXC error
does not re-resolve the tracked device — the refreshed device list holds a
changed record `dev1` for the same id, yet the cycle keeps polling `dev0`. -/
theorem C7_reresolve_counterexample :
    cycleDevice (pollCycleFull "trigger" okExecT (.int 1) ⟨.null, dev0⟩
        (some accInfo) true [dev1]) = some dev0 ∧
    findDevice [dev1] (.int 1) = some dev1 ∧
    dev0 ≠ dev1 :=
  ⟨rfl, rfl, by simp [dev0, dev1]⟩

/-- C7 amended: the tracked device is re-resolved from the refreshed device
list after a successful reconnect caused by a no-response sample or by a
session-expired-family error code; after a reconnect caused by ACCSESSEXC
or by any unclassified error code, polling resumes with the previously
resolved device and no re-resolution happens. -/
theorem C7_reresolve_amended :
    (∀ (mode : String) (execT : String → Except Unit Unit) (deviceId : JValue)
        (s : MonState) (newDevices : List Dict) (d : Dict),
      findDevice newDevices deviceId = some d →
      pollCycleFull mode execT deviceId s none true newDevices =
        .next ⟨s.last, d⟩ [] true) ∧
    (∀ (mode : String) (execT : String → Except Unit Unit) (deviceId : JValue)
        (s : MonState) (newDevices : List Dict) (d : Dict) (kvs ekvs : Dict),
      kvs.lookup "error" = some (.dict ekvs) →
      sessionExpiredCode (dget ekvs "code" .null) = true →
      findDevice newDevices deviceId = some d →
      pollCycleFull mode execT deviceId s (some (.dict kvs)) true newDevices =
        .next ⟨s.last, d⟩ [] true) ∧
    (∀ (mode : String) (execT : String → Except Unit Unit) (deviceId : JValue)
        (s : MonState) (reconnectOk : Bool) (newDevices : List Dict) (kvs ekvs : Dict),
      kvs.lookup "error" = some (.dict ekvs) →
      sessionExpiredCode (dget ekvs "code" .null) = false →
      pollCycleFull mode execT deviceId s (some (.dict kvs)) reconnectOk newDevices =
        .next s [] false) := by
  refine ⟨?_, ?_, ?_⟩
  · intro mode execT deviceId s newDevices d hfind
    simp [pollCycleFull, reconnectAndReselect, hfind]
  · intro mode execT deviceId s newDevices d kvs ekvs hl hs hfind
    simp [pollCycleFull, hl, hs, reconnectAndReselect, hfind]
  · intro mode execT deviceId s reconnectOk newDevices kvs ekvs hl hs
    rcases hc : dget ekvs "code" .null with _ | b | nn | c | xs | kk <;>
      rw [hc] at hs <;>
      simp [pollCycleFull, hl, hs, hc]

/-- Witness for C7's amended claim at concrete cycles: re-resolution after a
no-response reconnect and after a session-expired reconnect, and no
re-resolution after an ACCSESSEXC reconnect. -/
theorem C7_reresolve_amended_witness :
    pollCycleFull "trigger" okExecT (.int 1) ⟨.null, dev0⟩ none true [dev1] =
      .next ⟨.null, dev1⟩ [] true ∧
    pollCycleFull "trigger" okExecT (.int 1) ⟨.null, dev0⟩
        (some (.dict [("error", .dict [("code", .str "USRSESSEXP")])])) true [dev1] =
      .next ⟨.null, dev1⟩ [] true ∧
    pollCycleFull "trigger" okExecT (.int 1) ⟨.null, dev0⟩
        (some (.dict [("error", .dict [("code", .str "ACCSESSEXC")])])) true [dev1] =
      .next ⟨.null, dev0⟩ [] false :=
  ⟨C7_reresolve_amended.1 "trigger" okExecT (.int 1) ⟨.null, dev0⟩ [dev1] dev1 rfl,
   C7_reresolve_amended.2.1 "trigger" okExecT (.int 1) ⟨.null, dev0⟩ [dev1] dev1
      [("error", .dict [("code", .str "USRSESSEXP")])] [("code", .str "USRSESSEXP")]
      rfl rfl rfl,
   C7_reresolve_amended.2.2 "trigger" okExecT (.int 1) ⟨.null, dev0⟩ true [dev1]
      [("error", .dict [("code", .str "ACCSESSEXC")])] [("code", .str "ACCSESSEXC")]
      rfl rfl⟩

/-- C8 counterexample: initial login and initial device enumeration both
succeed, yet the process still terminates at startup because the configured
device id (1) is absent from the fetched device list — a third unrecoverable
startup failure beyond the two the claim allows. -/
theorem C8_startup_counterexample :
    startup true true [[("id", .int 2)]] (.int 1) = .exitNotFound := rfl

/-- C8 amended: the unrecoverable startup failures are exactly initial login
failure, initial device-enumeration failure, and the configured device id
being absent from the initial device list; when all three checks pass the
loop starts; and reconnect exhaustion never terminates the process — the
poll cycle continues with its state unchanged. -/
theorem C8_startup_amended :
    (∀ (devicesOk : Bool) (devices : List Dict) (deviceId : JValue),
      startup false devicesOk devices deviceId = .exitLogin) ∧
    (∀ (devices : List Dict) (deviceId : JValue),
      startup true false devices deviceId = .exitDevices) ∧
    (∀ (devices : List Dict) (deviceId : JValue) (d : Dict),
      findDevice devices deviceId = some d →
      startup true true devices deviceId = .running d) ∧
    (∀ (devices : List Dict) (deviceId : JValue),
      findDevice devices deviceId = none →
      startup true true devices deviceId = .exitNotFound) ∧
    (∀ (mode : String) (execT : String → Except Unit Unit) (deviceId : JValue)
        (s : MonState) (newDevices : List Dict),
      pollCycleFull mode execT deviceId s none false newDevices = .next s [] false) := by
  refine ⟨?_, ?_, ?_, ?_, ?_⟩
  · intro devicesOk devices deviceId
    simp [startup]
  · intro devices deviceId
    simp [startup]
  · intro devices deviceId d hfind
    simp [startup, hfind]
  · intro devices deviceId hfind
    simp [startup, hfind]
  · intro mode execT deviceId s newDevices
    simp [pollCycleFull, reconnectAndReselect]

/-- Witness for C8's amended claim at concrete startups: a login failure, a
successful resolution, a not-found exit with an empty device list, and a
continuing cycle on reconnect exhaustion. -/
theorem C8_startup_amended_witness :
    startup false true [dev1] (.int 1) = .exitLogin ∧
    startup true true [dev1] (.int 1) = .running dev1 ∧
    startup true true [] (.int 1) = .exitNotFound ∧
    pollCycleFull "monitor" okExecT (.int 1) ⟨.null, dev0⟩ none false [] =
      .next ⟨.null, dev0⟩ [] false :=
  ⟨C8_startup_amended.1 true [dev1] (.int 1),
   C8_startup_amended.2.2.1 [dev1] (.int 1) dev1 rfl,
   C8_startup_amended.2.2.2.1 [] (.int 1) rfl,
   C8_startup_amended.2.2.2.2 "monitor" okExecT (.int 1) ⟨.null, dev0⟩ []⟩

/-- C10: when the first login response is an ACCSESSEXC error object (a dict
without a `session` field whose error code is ACCSESSEXC), login performs
the forced logout and exactly one retry (two login POSTs in total), and
returns true iff that single retry response is a dict containing a
`session` field; a first response containing a `session` field succeeds
immediately with one POST; and no call of login ever sends more than two
login POSTs. -/
theorem C10_login_accsessexc_retry :
    (∀ (kvs : Dict) (second : HttpOutcome),
      kvs.lookup "session" = none →
      (∃ ekvs : Dict, dget kvs "error" (.dict []) = .dict ekvs ∧
        dget ekvs "code" .null = .str "ACCSESSEXC") →
      ∃ t : LoginTrace, loginModel (.body (.dict kvs)) second = .ok t ∧
        t.posts = 2 ∧ t.logoutTried = true ∧ t.success = hasSession second) ∧
    (∀ (kvs : Dict) (second : HttpOutcome) (v : JValue),
      kvs.lookup "session" = some v →
      loginModel (.body (.dict kvs)) second = .ok ⟨true, 1, false⟩) ∧
    (∀ (first second : HttpOutcome) (t : LoginTrace),
      loginModel first second = .ok t → t.posts ≤ 2) := by
  refine ⟨?_, ?_, ?_⟩
  · rintro kvs second hs ⟨ekvs, he, hc⟩
    have hs' : (kvs.lookup "session").isSome = false := by simp [hs]
    cases second with
    | exn =>
        exact ⟨⟨false, 2, true⟩, by simp [loginModel, hs', he, hc], rfl, rfl, rfl⟩
    | body r2 =>
        cases r2 with
        | dict kvs2 =>
            cases hI : (kvs2.lookup "session").isSome with
            | true =>
                exact ⟨⟨true, 2, true⟩, by simp [loginModel, hs', he, hc, hI], rfl, rfl,
                  by simp [hasSession, hI]⟩
            | false =>
                exact ⟨⟨false, 2, true⟩, by simp [loginModel, hs', he, hc, hI], rfl, rfl,
                  by simp [hasSession, hI]⟩
        | null => exact ⟨⟨false, 2, true⟩, by simp [loginModel, hs', he, hc], rfl, rfl, rfl⟩
        | bool b => exact ⟨⟨false, 2, true⟩, by simp [loginModel, hs', he, hc], rfl, rfl, rfl⟩
        | int n => exact ⟨⟨false, 2, true⟩, by simp [loginModel, hs', he, hc], rfl, rfl, rfl⟩
        | str s2 => exact ⟨⟨false, 2, true⟩, by simp [loginModel, hs', he, hc], rfl, rfl, rfl⟩
        | list xs => exact ⟨⟨false, 2, true⟩, by simp [loginModel, hs', he, hc], rfl, rfl, rfl⟩
  · intro kvs second v hv
    have hI : (kvs.lookup "session").isSome = true := by simp [hv]
    simp [loginModel, hI]
  · intro first second t h
    cases first with
    | exn =>
        simp only [loginModel] at h
        injection h with h1
        subst h1
        decide
    | body r =>
        cases r <;> simp only [loginModel] at h <;> repeat' split at h
        all_goals first
          | (injection h with h1; subst h1; decide)
          | (injection h)

/-- Witness for C10 at concrete responses: an ACCSESSEXC first response with
a successful retry, a first response that already has a session, and a
two-exception call. -/
theorem C10_login_accsessexc_retry_witness :
    (∃ t : LoginTrace,
      loginModel (.body (.dict [("error", .dict [("code", .str "ACCSESSEXC")])]))
          (.body (.dict [("session", .str "s2")])) = .ok t ∧
      t.posts = 2 ∧ t.logoutTried = true ∧
      t.success = hasSession (.body (.dict [("session", .str "s2")]))) ∧
    loginModel (.body (.dict [("session", .str "s1")])) .exn = .ok ⟨true, 1, false⟩ ∧
    (⟨false, 1, false⟩ : LoginTrace).posts ≤ 2 :=
  ⟨C10_login_accsessexc_retry.1 [("error", .dict [("code", .str "ACCSESSEXC")])]
      (.body (.dict [("session", .str "s2")])) rfl
      ⟨[("code", .str "ACCSESSEXC")], rfl, rfl⟩,
   C10_login_accsessexc_retry.2.1 [("session", .str "s1")] .exn (.str "s1") rfl,
   C10_login_accsessexc_retry.2.2 .exn .exn ⟨false, 1, false⟩ rfl⟩

end Sinope
